import Mathlib

/-!
Verification of the iterative product-description workflow
(`iterative_workflow.py`): a writer → critic → decision → editor loop over a
shared `ProductDescriptionState` record, with a tolerant score parser in the
critic and a quality/iteration gate in the decision node.

The Python nodes are shallowly embedded as pure Lean functions on the state
record; each LangGraph node returns a partial update that is merged into the
state, which we model with a record update.  The LLM calls are external: a
run is parameterized by an oracle `outputs : Nat → Except String String`
giving, for each successive generation call, either the completion string or
the exception message the client raised.
-/

namespace IterativeWorkflow

/-- Configuration constant `MAX_ITERATIONS = 3` from the module header. -/
def MAX_ITERATIONS : Int := 3

/-- Configuration constant `QUALITY_THRESHOLD = 7  # Out of 10`. -/
def QUALITY_THRESHOLD : Int := 7

/-- The `ProductDescriptionState` TypedDict.  Python `int` is unbounded, so
`quality_score` and `iteration` are `Int`. -/
structure ProductDescriptionState where
  product_name : String
  product_features : String
  current_description : String
  feedback : String
  quality_score : Int
  iteration : Int
  should_continue : Bool
  history : List String
deriving Repr, DecidableEq

/-- Substring occurrence on character lists: some suffix of `l` starts with
`pat`. -/
def hasSub (pat : List Char) : List Char → Bool
  | [] => pat.isEmpty
  | c :: rest => pat.isPrefixOf (c :: rest) || hasSub pat rest

/-- Python `pat in s` substring test. -/
def pyContains (s pat : String) : Bool :=
  hasSub pat.toList s.toList

/-- Python `s.split(sep)` for a one-character separator `sep` (the source
only splits on `'\n'` and `':'`), as well as the splitting step of the
no-argument `s.split()`: cut at every character satisfying `p`, keeping
empty pieces. -/
def pySplit (p : Char → Bool) : List Char → List (List Char)
  | [] => [[]]
  | c :: rest =>
    match pySplit p rest with
    | [] => [[c]]
    | piece :: pieces =>
      if p c then [] :: piece :: pieces else (c :: piece) :: pieces

/-- Python `s.strip()` with no argument: remove leading and trailing
whitespace.  (Python's whitespace set also has `\x0b`/`\x0c`, which never
occur here; `Char.isWhitespace` covers space, tab, CR, LF.) -/
def pyStrip (l : List Char) : List Char :=
  ((l.dropWhile Char.isWhitespace).reverse.dropWhile Char.isWhitespace).reverse

/-- `.strip()` on a `String`. -/
def pyStripStr (s : String) : String :=
  ⟨pyStrip s.toList⟩

/-- Tail of a Python integer literal body: digits, with single underscores
allowed only between digits (`1_0` parses, `1__0`, `1_`, `_1` do not). -/
def pyDigitTail : List Char → Bool
  | [] => true
  | '_' :: c :: rest => c.isDigit && pyDigitTail rest
  | c :: rest => c.isDigit && pyDigitTail rest

/-- Body of a Python integer literal after the optional sign: nonempty,
leading digit, then `pyDigitTail`. -/
def pyIntBody : List Char → Bool
  | [] => false
  | c :: rest => c.isDigit && pyDigitTail rest

/-- Numeric value of a digit string (underscores already removed). -/
def digitsVal (l : List Char) : Int :=
  l.foldl (fun a c => a * 10 + ((c.toNat : Int) - 48)) 0

/-- Python `int(x)` restricted to ASCII decimal strings: strips surrounding
whitespace, accepts an optional `+`/`-` sign and a digit body with
underscores between digits; anything else raises `ValueError`, i.e. `none`.
(Python also accepts non-ASCII unicode digits; the workflow's prompts and
the claims only involve ASCII, so those are not modelled.) -/
def pyInt (x : List Char) : Option Int :=
  match pyStrip x with
  | '+' :: rest =>
      if pyIntBody rest then some (digitsVal (rest.filter (fun c => c ≠ '_'))) else none
  | '-' :: rest =>
      if pyIntBody rest then some (-(digitsVal (rest.filter (fun c => c ≠ '_')))) else none
  | l =>
      if pyIntBody l then some (digitsVal (l.filter (fun c => c ≠ '_'))) else none

/-- The critic's score extraction, i.e. the body of the `try:` block in
`critic_node`:

    score_line = [line for line in evaluation.split('\n') if 'SCORE:' in line][0]
    quality_score = int(score_line.split(':')[1].strip().split()[0])

Every failure point (`IndexError` from `[0]`/`[1]`, `ValueError` from
`int`) maps to `none`; the bare `except:` in the source turns `none` into
the fallback score 5. -/
def extractScore (evaluation : String) : Option Int :=
  (((pySplit (fun ch => ch = '\n') evaluation.toList).filter
      (fun line => hasSub "SCORE:".toList line)).head?).bind
    (fun score_line =>
      (((pySplit (fun ch => ch = ':') score_line).drop 1).head?).bind
        (fun after =>
          (((pySplit Char.isWhitespace (pyStrip after)).filter
              (fun t => t ≠ [])).head?).bind
            (fun tok => pyInt tok)))

/-- The history entry `f"Iteration {i} - Writer: {new_description[:100]}..."`
appended by `writer_node` (`new_description` is already stripped). -/
def writerEntry (it : Int) (new_description : String) : String :=
  "Iteration " ++ toString it ++ " - Writer: " ++ new_description.take 100 ++ "..."

/-- The history entry `f"Iteration {i} - Critic Score: {quality_score}/10"`
appended by `critic_node`. -/
def criticEntry (it : Int) (quality_score : Int) : String :=
  "Iteration " ++ toString it ++ " - Critic Score: " ++ toString quality_score ++ "/10"

/-- The history entry `"Final Editor Polish Applied"` appended by
`editor_node`. -/
def editorEntry : String := "Final Editor Polish Applied"

/-- `writer_node`: the LLM completion `response` (i.e.
`writer_llm.invoke(...).content`) is stripped and becomes the current
description; one history entry is appended.  The prompt construction (two
modes selected by `iteration == 1`) only influences the external call and
is not needed for the claims; the returned partial update
`{'current_description': ..., 'history': state['history'] + [...]}` is
merged into the state. -/
def writer_node (response : String) (state : ProductDescriptionState) :
    ProductDescriptionState :=
  let new_description := pyStripStr response
  { state with
      current_description := new_description,
      history := state.history ++ [writerEntry state.iteration new_description] }

/-- `critic_node`: the completion is stripped to `evaluation`; the score is
parsed with the `try ... except: quality_score = 5` policy; the update sets
`feedback`, `quality_score` and appends one history entry. -/
def critic_node (response : String) (state : ProductDescriptionState) :
    ProductDescriptionState :=
  let evaluation := pyStripStr response
  let quality_score := (extractScore evaluation).getD 5
  { state with
      feedback := evaluation,
      quality_score := quality_score,
      history := state.history ++ [criticEntry state.iteration quality_score] }

/-- `decision_node`, with the two module-level constants
(`QUALITY_THRESHOLD`, `MAX_ITERATIONS`) generalized to parameters so that
configuration-dependent claims can be stated; the source reads the globals,
i.e. it is `decision_nodeP QUALITY_THRESHOLD MAX_ITERATIONS`.  The update
returns only `{'should_continue': ..., 'iteration': ...}`. -/
def decision_nodeP (threshold maxIter : Int) (state : ProductDescriptionState) :
    ProductDescriptionState :=
  let should_continue :=
    decide (state.quality_score < threshold) && decide (state.iteration < maxIter)
  let new_iteration := if should_continue then state.iteration + 1 else state.iteration
  { state with should_continue := should_continue, iteration := new_iteration }

/-- `decision_node` as in the source, against the module constants. -/
def decision_node : ProductDescriptionState → ProductDescriptionState :=
  decision_nodeP QUALITY_THRESHOLD MAX_ITERATIONS

/-- `editor_node`: the stripped completion replaces the description and the
terminal history entry is appended. -/
def editor_node (response : String) (state : ProductDescriptionState) :
    ProductDescriptionState :=
  let final_description := pyStripStr response
  { state with
      current_description := final_description,
      history := state.history ++ [editorEntry] }

/-- `should_continue_iteration`: the conditional-edge routing function. -/
def should_continue_iteration (state : ProductDescriptionState) : String :=
  if state.should_continue then "writer" else "editor"

/-- The `initial_state` dict built in `main()`. -/
def initial_state : ProductDescriptionState :=
  { product_name := "EcoBreeze Smart Water Bottle",
    product_features := "\n        - Smart temperature display (LED)\n        - Keeps drinks cold for 24hrs, hot for 12hrs\n        - BPA-free stainless steel\n        - 750ml capacity\n        - Leak-proof design\n        - UV-C self-cleaning technology\n        - Companion mobile app for hydration tracking\n        ",
    current_description := "",
    feedback := "",
    quality_score := 0,
    iteration := 1,
    should_continue := true,
    history := [] }

@[simp] lemma writer_node_iteration (w : String) (s : ProductDescriptionState) :
    (writer_node w s).iteration = s.iteration := rfl

@[simp] lemma writer_node_quality (w : String) (s : ProductDescriptionState) :
    (writer_node w s).quality_score = s.quality_score := rfl

@[simp] lemma writer_node_history (w : String) (s : ProductDescriptionState) :
    (writer_node w s).history = s.history ++ [writerEntry s.iteration (pyStripStr w)] := rfl

@[simp] lemma writer_node_name (w : String) (s : ProductDescriptionState) :
    (writer_node w s).product_name = s.product_name := rfl

@[simp] lemma writer_node_features (w : String) (s : ProductDescriptionState) :
    (writer_node w s).product_features = s.product_features := rfl

@[simp] lemma critic_node_iteration (c : String) (s : ProductDescriptionState) :
    (critic_node c s).iteration = s.iteration := rfl

@[simp] lemma critic_node_quality (c : String) (s : ProductDescriptionState) :
    (critic_node c s).quality_score = (extractScore (pyStripStr c)).getD 5 := rfl

@[simp] lemma critic_node_history (c : String) (s : ProductDescriptionState) :
    (critic_node c s).history =
      s.history ++ [criticEntry s.iteration ((extractScore (pyStripStr c)).getD 5)] := rfl

@[simp] lemma critic_node_name (c : String) (s : ProductDescriptionState) :
    (critic_node c s).product_name = s.product_name := rfl

@[simp] lemma critic_node_features (c : String) (s : ProductDescriptionState) :
    (critic_node c s).product_features = s.product_features := rfl

@[simp] lemma decision_nodeP_continue (t m : Int) (s : ProductDescriptionState) :
    (decision_nodeP t m s).should_continue =
      (decide (s.quality_score < t) && decide (s.iteration < m)) := rfl

@[simp] lemma decision_nodeP_iteration (t m : Int) (s : ProductDescriptionState) :
    (decision_nodeP t m s).iteration =
      if (decide (s.quality_score < t) && decide (s.iteration < m)) = true
      then s.iteration + 1 else s.iteration := rfl

@[simp] lemma decision_nodeP_history (t m : Int) (s : ProductDescriptionState) :
    (decision_nodeP t m s).history = s.history := rfl

@[simp] lemma decision_nodeP_quality (t m : Int) (s : ProductDescriptionState) :
    (decision_nodeP t m s).quality_score = s.quality_score := rfl

@[simp] lemma decision_nodeP_name (t m : Int) (s : ProductDescriptionState) :
    (decision_nodeP t m s).product_name = s.product_name := rfl

@[simp] lemma decision_nodeP_features (t m : Int) (s : ProductDescriptionState) :
    (decision_nodeP t m s).product_features = s.product_features := rfl

@[simp] lemma decision_nodeP_description (t m : Int) (s : ProductDescriptionState) :
    (decision_nodeP t m s).current_description = s.current_description := rfl

@[simp] lemma decision_nodeP_feedback (t m : Int) (s : ProductDescriptionState) :
    (decision_nodeP t m s).feedback = s.feedback := rfl

@[simp] lemma editor_node_iteration (e : String) (s : ProductDescriptionState) :
    (editor_node e s).iteration = s.iteration := rfl

@[simp] lemma editor_node_quality (e : String) (s : ProductDescriptionState) :
    (editor_node e s).quality_score = s.quality_score := rfl

@[simp] lemma editor_node_continue (e : String) (s : ProductDescriptionState) :
    (editor_node e s).should_continue = s.should_continue := rfl

@[simp] lemma editor_node_history (e : String) (s : ProductDescriptionState) :
    (editor_node e s).history = s.history ++ [editorEntry] := rfl

/-- The compiled graph of `create_product_description_workflow`, loop part:
from the `writer` node, execute `writer → critic → decision` and follow the
conditional edge `should_continue_iteration` back to `writer` or on to
`editor`.  `outputs n` is the completion (or raised exception message) of
the (n+1)-st LLM call of the run; `k` is the index of the next call.  The
result is the next call index, the list of graph nodes executed (in
order), and the state at the moment the conditional edge routes to
`"editor"`; an LLM exception aborts the run and propagates unchanged.
The two configuration constants are parameters, as in `decision_nodeP`;
the source graph is the instance at `QUALITY_THRESHOLD, MAX_ITERATIONS`. -/
def runLoopP (threshold maxIter : Int) (outputs : Nat → Except String String)
    (k : Nat) (state : ProductDescriptionState) :
    Except String (Nat × List String × ProductDescriptionState) :=
  match outputs k with
  | .error e => .error e
  | .ok w =>
    match outputs (k + 1) with
    | .error e => .error e
    | .ok c =>
      if h : should_continue_iteration
          (decision_nodeP threshold maxIter (critic_node c (writer_node w state))) = "writer" then
        match runLoopP threshold maxIter outputs (k + 2)
            (decision_nodeP threshold maxIter (critic_node c (writer_node w state))) with
        | .error e => .error e
        | .ok (k', tr, sf) => .ok (k', "writer" :: "critic" :: "decision" :: tr, sf)
      else
        .ok (k + 2, ["writer", "critic", "decision"],
          decision_nodeP threshold maxIter (critic_node c (writer_node w state)))
  termination_by (maxIter - state.iteration).toNat
  decreasing_by
    simp only [should_continue_iteration, decision_nodeP_continue, critic_node_quality,
      critic_node_iteration, writer_node_iteration, decision_nodeP_iteration] at h ⊢
    split at h
    · rename_i hc
      split
      · rename_i hc2
        simp only [Bool.and_eq_true, decide_eq_true_eq] at hc2
        omega
      · rename_i hc2
        exact absurd hc hc2
    · exact absurd h (by decide)

/-- `workflow.invoke(...)`: run the loop from the `writer` node, then the
`editor` node, then `END`.  Returns the executed node list and the final
state, or the first LLM exception. -/
def invokeP (threshold maxIter : Int) (outputs : Nat → Except String String)
    (state : ProductDescriptionState) :
    Except String (List String × ProductDescriptionState) :=
  match runLoopP threshold maxIter outputs 0 state with
  | .error e => .error e
  | .ok (k, tr, s') =>
    match outputs k with
    | .error e => .error e
    | .ok ed => .ok (tr ++ ["editor"], editor_node ed s')

/-- The source workflow: `invokeP` at the module constants. -/
def invoke : (Nat → Except String String) → ProductDescriptionState →
    Except String (List String × ProductDescriptionState) :=
  invokeP QUALITY_THRESHOLD MAX_ITERATIONS

/-- Trace of `b` executions of the loop body: the graph nodes
`writer, critic, decision` repeated `b` times. -/
def bodyTrace : Nat → List String
  | 0 => []
  | b + 1 => "writer" :: "critic" :: "decision" :: bodyTrace b

/-- Shape of the history entries appended by the loop when entered at
iteration `it`: alternating writer/critic entries, with the iteration
number increasing by 1 from one body execution to the next. -/
inductive LoopHistory : Int → List String → Prop
  | nil (it : Int) : LoopHistory it []
  | cons (it : Int) (d : String) (sc : Int) (rest : List String) :
      LoopHistory (it + 1) rest →
      LoopHistory it (writerEntry it d :: criticEntry it sc :: rest)

/-- An oracle whose every generation call succeeds with `"text"`. -/
def okOut : Nat → Except String String := fun _ => Except.ok "text"

/-- An oracle whose first call — the Writer's on iteration 1 — raises
`Timeout`. -/
def outW : Nat → Except String String := fun _ => Except.error "Timeout"

/-- An oracle whose second call — the Critic's on iteration 1 — raises
`Timeout` (the first call, the Writer's, succeeds). -/
def outC : Nat → Except String String := fun n =>
  if n = 0 then Except.ok "draft text" else Except.error "Timeout"

/-- An oracle whose second call — the Critic's on iteration 1 — returns an
evaluation whose `SCORE:` line carries 15, outside the 0–10 scale. -/
def out15 : Nat → Except String String := fun n =>
  if n = 1 then Except.ok "SCORE: 15\nFEEDBACK: too long" else Except.ok "text"

lemma editor_ne_writer : ("editor" : String) ≠ "writer" := by decide

/-- The conditional edge routes to `writer` exactly when the continuation
flag is set. -/
lemma route_writer_iff (s : ProductDescriptionState) :
    should_continue_iteration s = "writer" ↔ s.should_continue = true := by
  unfold should_continue_iteration
  cases h : s.should_continue
  · simp [editor_ne_writer]
  · simp

lemma route_not_writer {s : ProductDescriptionState}
    (h : ¬ should_continue_iteration s = "writer") : s.should_continue = false := by
  cases hf : s.should_continue
  · rfl
  · exact absurd ((route_writer_iff s).mpr hf) h

lemma decision_continue_iter {t m : Int} {s : ProductDescriptionState}
    (h : (decision_nodeP t m s).should_continue = true) :
    (decision_nodeP t m s).iteration = s.iteration + 1 ∧
      s.iteration < m ∧ s.quality_score < t := by
  simp only [decision_nodeP_continue, Bool.and_eq_true, decide_eq_true_eq] at h
  refine ⟨?_, h.2, h.1⟩
  simp [decision_nodeP_iteration, h.1, h.2]

lemma decision_stop_iter {t m : Int} {s : ProductDescriptionState}
    (h : (decision_nodeP t m s).should_continue = false) :
    (decision_nodeP t m s).iteration = s.iteration := by
  simp only [decision_nodeP_continue] at h
  simp [decision_nodeP_iteration, h]

@[simp] lemma bodyTrace_count_writer (b : Nat) : (bodyTrace b).count "writer" = b := by
  induction b with
  | zero => rfl
  | succ b ih => simp [bodyTrace, List.count_cons, ih]

@[simp] lemma bodyTrace_count_editor (b : Nat) : (bodyTrace b).count "editor" = 0 := by
  induction b with
  | zero => rfl
  | succ b ih => simp [bodyTrace, List.count_cons, ih]

/-- Loop invariant: a normally-returning loop run executed some `b ≥ 1`
whole bodies (`writer → critic → decision` each), consumed exactly two
generation calls per body, ends with the continuation flag cleared, never
pushes the iteration counter past the ceiling, leaves the immutable fields
alone, and appends exactly two history entries per body, in execution
order. -/
lemma runLoop_spec (threshold maxIter : Int) (outputs : Nat → Except String String)
    (k : Nat) (s : ProductDescriptionState) :
    ∀ (k' : Nat) (tr : List String) (s' : ProductDescriptionState),
      runLoopP threshold maxIter outputs k s = Except.ok (k', tr, s') →
      ∃ b : Nat,
        tr = bodyTrace b ∧ 1 ≤ b ∧ b ≤ (maxIter - s.iteration).toNat + 1 ∧
        k' = k + 2 * b ∧
        s'.should_continue = false ∧
        s.iteration ≤ s'.iteration ∧
        (s.iteration ≤ maxIter → s'.iteration ≤ maxIter) ∧
        s'.product_name = s.product_name ∧
        s'.product_features = s.product_features ∧
        ∃ l, s'.history = s.history ++ l ∧ LoopHistory s.iteration l ∧
          l.length = 2 * b := by
  induction k, s using runLoopP.induct threshold maxIter outputs with
  | case1 k s e hk =>
    intro k' tr s' h
    rw [runLoopP.eq_def] at h
    simp [hk] at h
  | case2 k s w hk e hk1 =>
    intro k' tr s' h
    rw [runLoopP.eq_def] at h
    simp [hk, hk1] at h
  | case3 k s w hk c hk1 hroute e hrec ih =>
    intro k' tr s' h
    rw [runLoopP.eq_def] at h
    simp only [hk, hk1] at h
    rw [dif_pos hroute] at h
    simp [hrec] at h
  | case4 k s w hk c hk1 hroute k2 tr2 sf hrec ih =>
    intro k' tr s' h
    rw [runLoopP.eq_def] at h
    simp only [hk, hk1] at h
    rw [dif_pos hroute] at h
    simp only [hrec, Except.ok.injEq, Prod.mk.injEq] at h
    obtain ⟨hk', htr, hs'⟩ := h
    subst hk' htr hs'
    obtain ⟨b, htr2, hb1, hble, hk2, hflag, hmono, hiter, hname, hfeat, l, hhist, hlh, hlen⟩ :=
      ih k2 tr2 sf hrec
    have hcont := (route_writer_iff _).mp hroute
    obtain ⟨hit3, hitlt, _⟩ := decision_continue_iter hcont
    refine ⟨b + 1, by simp [bodyTrace, htr2], by omega, ?_, by omega, hflag, ?_, ?_, ?_, ?_, ?_⟩
    · rw [hit3] at hble
      simp only [critic_node_iteration, writer_node_iteration] at hble hitlt
      omega
    · rw [hit3] at hmono
      simp only [critic_node_iteration, writer_node_iteration] at hmono
      omega
    · intro _
      apply hiter
      rw [hit3]
      simp only [critic_node_iteration, writer_node_iteration]
      simp only [critic_node_iteration, writer_node_iteration] at hitlt
      omega
    · rw [hname]; simp
    · rw [hfeat]; simp
    · refine ⟨writerEntry s.iteration (pyStripStr w) ::
        criticEntry s.iteration ((extractScore (pyStripStr c)).getD 5) :: l, ?_, ?_, ?_⟩
      · rw [hhist]
        simp only [decision_nodeP_history, critic_node_history, writer_node_history,
          critic_node_iteration, writer_node_iteration]
        simp
      · refine LoopHistory.cons _ _ _ _ ?_
        rw [hit3] at hlh
        simpa only [critic_node_iteration, writer_node_iteration] using hlh
      · simp [hlen]
        omega
  | case5 k s w hk c hk1 hroute =>
    intro k' tr s' h
    rw [runLoopP.eq_def] at h
    simp only [hk, hk1] at h
    rw [dif_neg hroute] at h
    simp only [Except.ok.injEq, Prod.mk.injEq] at h
    obtain ⟨hk', htr, hs'⟩ := h
    subst hk' htr hs'
    have hflag := route_not_writer hroute
    have hit := decision_stop_iter hflag
    refine ⟨1, rfl, le_refl 1, by omega, by omega, hflag, ?_, ?_, by simp, by simp, ?_⟩
    · rw [hit]
      simp
    · intro hle
      rw [hit]
      simpa using hle
    · refine ⟨[writerEntry s.iteration (pyStripStr w),
        criticEntry s.iteration ((extractScore (pyStripStr c)).getD 5)], ?_, ?_, by simp⟩
      · simp
      · exact LoopHistory.cons _ _ _ _ (LoopHistory.nil _)

/-- If every generation call succeeds, the loop returns normally: the
decision policy's iteration ceiling forces an exit. -/
lemma runLoop_ok (threshold maxIter : Int) (outputs : Nat → Except String String)
    (hok : ∀ n, ∃ cc, outputs n = Except.ok cc) (k : Nat) (s : ProductDescriptionState) :
    ∃ k' tr s', runLoopP threshold maxIter outputs k s = Except.ok (k', tr, s') := by
  induction k, s using runLoopP.induct threshold maxIter outputs with
  | case1 k s e hk =>
    obtain ⟨cc, hcc⟩ := hok k
    rw [hcc] at hk
    cases hk
  | case2 k s w hk e hk1 =>
    obtain ⟨cc, hcc⟩ := hok (k + 1)
    rw [hcc] at hk1
    cases hk1
  | case3 k s w hk c hk1 hroute e hrec ih =>
    obtain ⟨k2, tr2, sf, h2⟩ := ih
    rw [h2] at hrec
    cases hrec
  | case4 k s w hk c hk1 hroute k2 tr2 sf hrec ih =>
    refine ⟨k2, "writer" :: "critic" :: "decision" :: tr2, sf, ?_⟩
    rw [runLoopP.eq_def]
    simp only [hk, hk1]
    rw [dif_pos hroute, hrec]
  | case5 k s w hk c hk1 hroute =>
    refine ⟨k + 2, ["writer", "critic", "decision"],
      decision_nodeP threshold maxIter (critic_node c (writer_node w s)), ?_⟩
    rw [runLoopP.eq_def]
    simp only [hk, hk1]
    rw [dif_neg hroute]

/-- A loop run that fails does so with the error of one of the generation
calls, propagated to the caller unchanged (no wrapping, no stage tag). -/
lemma runLoop_error_src (threshold maxIter : Int) (outputs : Nat → Except String String)
    (k : Nat) (s : ProductDescriptionState) :
    ∀ e, runLoopP threshold maxIter outputs k s = Except.error e →
      ∃ j, outputs j = Except.error e := by
  induction k, s using runLoopP.induct threshold maxIter outputs with
  | case1 k s e0 hk =>
    intro e h
    rw [runLoopP.eq_def] at h
    simp only [hk, Except.error.injEq] at h
    exact ⟨k, by rw [hk, h]⟩
  | case2 k s w hk e0 hk1 =>
    intro e h
    rw [runLoopP.eq_def] at h
    simp only [hk, hk1, Except.error.injEq] at h
    exact ⟨k + 1, by rw [hk1, h]⟩
  | case3 k s w hk c hk1 hroute e0 hrec ih =>
    intro e h
    rw [runLoopP.eq_def] at h
    simp only [hk, hk1] at h
    rw [dif_pos hroute] at h
    simp only [hrec, Except.error.injEq] at h
    exact h ▸ ih e0 hrec
  | case4 k s w hk c hk1 hroute k2 tr2 sf hrec ih =>
    intro e h
    rw [runLoopP.eq_def] at h
    simp only [hk, hk1] at h
    rw [dif_pos hroute] at h
    simp [hrec] at h
  | case5 k s w hk c hk1 hroute =>
    intro e h
    rw [runLoopP.eq_def] at h
    simp only [hk, hk1] at h
    rw [dif_neg hroute] at h
    cases h

/-- C1: the Decision stage's verdict is `continue` (the `should_continue`
flag) exactly when `quality_score < QUALITY_THRESHOLD` and
`iteration < MAX_ITERATIONS`; when continuing the returned iteration
counter is the input one plus exactly 1, and otherwise (in particular
whenever the score reached the threshold while the iteration was still
below the ceiling) it is unchanged. -/
theorem decision_verdict_spec (s : ProductDescriptionState) :
    ((decision_node s).should_continue = true ↔
      s.quality_score < QUALITY_THRESHOLD ∧ s.iteration < MAX_ITERATIONS) ∧
    (decision_node s).iteration =
      (if s.quality_score < QUALITY_THRESHOLD ∧ s.iteration < MAX_ITERATIONS
       then s.iteration + 1 else s.iteration) := by
  unfold decision_node
  constructor
  · simp [decision_nodeP_continue]
  · simp only [decision_nodeP_iteration]
    by_cases h1 : s.quality_score < QUALITY_THRESHOLD <;>
      by_cases h2 : s.iteration < MAX_ITERATIONS <;>
      simp [h1, h2]

/-- C3: whenever the critic's score extraction fails — no line of the
(stripped) response contains `SCORE:`, or the token after the first colon
of the first such line is not a Python integer (all of which make
`extractScore` return `none`) — the stored quality score is exactly the
fallback 5, and in particular the raw response `"no score here"` yields
score 5.  The critic node is a total function: a malformed response cannot
fail the run (run failures arise only from the generation calls
themselves, see `error_propagation_spec`). -/
theorem critic_score_fallback :
    (∀ (s : ProductDescriptionState) (response : String),
      extractScore (pyStripStr response) = none →
      (critic_node response s).quality_score = 5) ∧
    (∀ s : ProductDescriptionState,
      (critic_node "no score here" s).quality_score = 5) := by
  constructor
  · intro s response h
    simp [critic_node_quality, h]
  · intro s
    rfl

/-- Witness for `critic_score_fallback` at the concrete response
`"no score here"` and the concrete start state of `main()`. -/
theorem critic_score_fallback_witness :
    (critic_node "no score here" initial_state).quality_score = 5 :=
  critic_score_fallback.1 initial_state "no score here" rfl

/-- C5 counterexample: the critic stores the parsed integer without any
range check, so a response whose `SCORE:` line carries 15 puts 15 — a
value outside [0,10] — into the quality-score field, refuting the claim
that every value the Critic stores lies in [0,10]. -/
theorem critic_score_range_counterexample :
    (critic_node "SCORE: 15\nFEEDBACK: too long" initial_state).quality_score = 15 ∧
    ¬ (critic_node "SCORE: 15\nFEEDBACK: too long" initial_state).quality_score ≤ 10 := by
  constructor
  · rfl
  · decide

/-- C5 as amended: the value the Critic stores is the fallback 5 — which
does lie in [0,10] — exactly when extraction fails; otherwise it is the
parsed integer itself, stored unclamped, so it lies in [0,10] only when
the model's response does. -/
theorem critic_score_characterization (response : String) (s : ProductDescriptionState) :
    (extractScore (pyStripStr response) = none ∧
      (critic_node response s).quality_score = 5 ∧
      0 ≤ (critic_node response s).quality_score ∧
      (critic_node response s).quality_score ≤ 10) ∨
    (∃ n : Int, extractScore (pyStripStr response) = some n ∧
      (critic_node response s).quality_score = n) := by
  cases h : extractScore (pyStripStr response) with
  | none =>
    left
    refine ⟨rfl, ?_, ?_, ?_⟩ <;> simp [critic_node_quality, h]
  | some n =>
    right
    exact ⟨n, rfl, by simp [critic_node_quality, h]⟩

/-- C9 counterexample: the Decision stage appends nothing to the history —
its update carries only the flag and the iteration counter — so after a
Decision execution the history is not one element longer, refuting
"every execution of every stage appends exactly one entry". -/
theorem decision_appends_no_history :
    (decision_node initial_state).history.length ≠ initial_state.history.length + 1 := by
  decide

/-- C9 as amended: the Writer, Critic, and Editor stages each append
exactly one entry per execution (the history grows by one and the prior
entries are preserved as a prefix), while the Decision stage appends
none, leaving the history unchanged. -/
theorem stage_history_append_spec (w c e : String) (s : ProductDescriptionState) :
    (writer_node w s).history.length = s.history.length + 1 ∧
    s.history <+: (writer_node w s).history ∧
    (critic_node c s).history.length = s.history.length + 1 ∧
    s.history <+: (critic_node c s).history ∧
    (editor_node e s).history.length = s.history.length + 1 ∧
    s.history <+: (editor_node e s).history ∧
    (decision_node s).history = s.history := by
  refine ⟨by simp, ⟨_, rfl⟩, by simp, ⟨_, rfl⟩, by simp, ⟨_, rfl⟩, rfl⟩

/-- C10: the Decision stage's update changes only the continuation flag
and the iteration counter — product name, features, draft, feedback,
score and history are untouched.  That the stage issues no generation
call is visible in the embedding: `decision_node`/`decision_nodeP` is a
function of the state alone, and in `runLoopP` the two oracle calls of a
loop body go to the writer and the critic (`runLoop_spec` proves the call
counter advances by exactly 2 per body). -/
theorem decision_frame_spec (s : ProductDescriptionState) :
    (decision_node s).product_name = s.product_name ∧
    (decision_node s).product_features = s.product_features ∧
    (decision_node s).current_description = s.current_description ∧
    (decision_node s).feedback = s.feedback ∧
    (decision_node s).quality_score = s.quality_score ∧
    (decision_node s).history = s.history := by
  exact ⟨rfl, rfl, rfl, rfl, rfl, rfl⟩

/-- C2: from a start state with `iteration = 1`, whatever completions the
generators produce, the run returns (termination), the loop body
`writer → critic → decision` executes at most `MAX_ITERATIONS` times
before the run is routed to the editor, and the iteration counter ends at
most `MAX_ITERATIONS` (by `runLoop_spec` it is also non-decreasing along
the run, so no intermediate value exceeds the final bound either). -/
theorem loop_termination_bound (outputs : Nat → Except String String)
    (s : ProductDescriptionState) (hstart : s.iteration = 1)
    (hok : ∀ n, ∃ cc, outputs n = Except.ok cc) :
    ∃ (b : Nat) (s' : ProductDescriptionState),
      invoke outputs s = Except.ok (bodyTrace b ++ ["editor"], s') ∧
      b ≤ MAX_ITERATIONS.toNat ∧ s'.iteration ≤ MAX_ITERATIONS := by
  obtain ⟨k', tr, s1, hloop⟩ :=
    runLoop_ok QUALITY_THRESHOLD MAX_ITERATIONS outputs hok 0 s
  obtain ⟨b, htr, hb1, hble, hk', hflag, hmono, hiter, -, -, -⟩ :=
    runLoop_spec _ _ _ 0 s k' tr s1 hloop
  obtain ⟨ed, hed⟩ := hok k'
  refine ⟨b, editor_node ed s1, ?_, ?_, ?_⟩
  · rw [invoke, invokeP]
    simp only [hloop, hed, htr]
  · rw [hstart] at hble
    simp only [MAX_ITERATIONS] at hble ⊢
    omega
  · rw [editor_node_iteration]
    apply hiter
    rw [hstart]
    decide

/-- Witness for `loop_termination_bound`: the all-succeeding oracle
(every completion `"text"`, which parses to the fallback score 5 < 7)
runs the loop the full `MAX_ITERATIONS` bodies and terminates. -/
theorem loop_termination_bound_witness :
    ∃ (b : Nat) (s' : ProductDescriptionState),
      invoke okOut initial_state = Except.ok (bodyTrace b ++ ["editor"], s') ∧
      b ≤ MAX_ITERATIONS.toNat ∧ s'.iteration ≤ MAX_ITERATIONS :=
  loop_termination_bound okOut initial_state rfl (fun _ => ⟨"text", rfl⟩)

/-- C4: a completed run that started with an empty history and
`iteration = 1` ends with `history = l ++ [editorEntry]`, where `l` holds
exactly the Writer and Critic entries in execution order — alternating,
iteration numbers counting up from 1 (`LoopHistory`) — so
`len(history) = 2 * bodies + 1`; entries are only ever appended
(`stage_history_append_spec`), never removed or reordered. -/
theorem history_length_spec (outputs : Nat → Except String String)
    (s : ProductDescriptionState) (tr : List String) (s' : ProductDescriptionState)
    (hstart : s.iteration = 1) (hhist : s.history = [])
    (hrun : invoke outputs s = Except.ok (tr, s')) :
    ∃ (b : Nat) (l : List String),
      tr = bodyTrace b ++ ["editor"] ∧
      s'.history = l ++ [editorEntry] ∧
      LoopHistory 1 l ∧ l.length = 2 * b ∧
      s'.history.length = 2 * b + 1 := by
  rw [invoke, invokeP] at hrun
  cases hloop : runLoopP QUALITY_THRESHOLD MAX_ITERATIONS outputs 0 s with
  | error e =>
    rw [hloop] at hrun
    simp at hrun
  | ok res =>
    obtain ⟨k1, tr1, s1⟩ := res
    rw [hloop] at hrun
    cases hed : outputs k1 with
    | error e =>
      simp only [hed] at hrun
      simp at hrun
    | ok ed =>
      simp only [hed, Except.ok.injEq, Prod.mk.injEq] at hrun
      obtain ⟨htr, hs'⟩ := hrun
      obtain ⟨b, htr1, -, -, -, -, -, -, -, -, l, hh, hlh, hlen⟩ :=
        runLoop_spec _ _ _ 0 s k1 tr1 s1 hloop
      subst hs'
      refine ⟨b, l, ?_, ?_, ?_, hlen, ?_⟩
      · rw [← htr, htr1]
      · rw [editor_node_history, hh, hhist]
        simp
      · rw [← hstart]
        exact hlh
      · rw [editor_node_history, hh, hhist]
        simp [hlen]

/-- Witness for `history_length_spec`: the history-length law holds on
the concrete all-`"text"` run from `main()`'s start state. -/
theorem history_length_spec_witness :
    ∃ (tr : List String) (s' : ProductDescriptionState),
      invoke okOut initial_state = Except.ok (tr, s') ∧
      ∃ (b : Nat) (l : List String),
        tr = bodyTrace b ++ ["editor"] ∧
        s'.history = l ++ [editorEntry] ∧
        LoopHistory 1 l ∧ l.length = 2 * b ∧
        s'.history.length = 2 * b + 1 := by
  obtain ⟨k', tr1, s1, hloop⟩ :=
    runLoop_ok QUALITY_THRESHOLD MAX_ITERATIONS okOut (fun _ => ⟨"text", rfl⟩)
      0 initial_state
  have hrun : invoke okOut initial_state =
      Except.ok (tr1 ++ ["editor"], editor_node "text" s1) := by
    rw [invoke, invokeP]
    simp only [hloop]
    rfl
  exact ⟨_, _, hrun, history_length_spec okOut initial_state _ _ rfl rfl hrun⟩

lemma writer_ne_editor : ("writer" : String) ≠ "editor" := by decide

/-- The conditional edge routes to `editor` exactly when the continuation
flag is cleared. -/
lemma route_editor_iff (s : ProductDescriptionState) :
    should_continue_iteration s = "editor" ↔ s.should_continue = false := by
  unfold should_continue_iteration
  cases h : s.should_continue
  · simp
  · simp [writer_ne_editor]

/-- C6: in every completed run the editor node executes exactly once, as
the last node; the continuation flag of the final state is `false` (the
editor does not modify it — `editor_node_continue`), and the routing
function sends a state to the editor exactly when its flag is `false`, so
once the Decision stage clears the flag the run leaves the
writer/critic loop for good: no `writer` or `critic` node occurs after
`editor` in the trace, since `editor` is its last element. -/
theorem editor_once_spec (outputs : Nat → Except String String)
    (s : ProductDescriptionState) (tr : List String) (s' : ProductDescriptionState)
    (hrun : invoke outputs s = Except.ok (tr, s')) :
    tr.count "editor" = 1 ∧ tr.getLast? = some "editor" ∧
    s'.should_continue = false ∧
    (∀ st : ProductDescriptionState,
      should_continue_iteration st = "editor" ↔ st.should_continue = false) := by
  rw [invoke, invokeP] at hrun
  cases hloop : runLoopP QUALITY_THRESHOLD MAX_ITERATIONS outputs 0 s with
  | error e =>
    rw [hloop] at hrun
    simp at hrun
  | ok res =>
    obtain ⟨k1, tr1, s1⟩ := res
    rw [hloop] at hrun
    cases hed : outputs k1 with
    | error e =>
      simp only [hed] at hrun
      simp at hrun
    | ok ed =>
      simp only [hed, Except.ok.injEq, Prod.mk.injEq] at hrun
      obtain ⟨htr, hs'⟩ := hrun
      obtain ⟨b, htr1, -, -, -, hflag, -, -, -, -, -, -, -⟩ :=
        runLoop_spec _ _ _ 0 s k1 tr1 s1 hloop
      subst hs'
      refine ⟨?_, ?_, ?_, route_editor_iff⟩
      · rw [← htr, htr1]
        simp [List.count_append]
      · rw [← htr]
        simp
      · rw [editor_node_continue]
        exact hflag

/-- Witness for `editor_once_spec` on the concrete all-`"text"` run. -/
theorem editor_once_spec_witness :
    ∃ (tr : List String) (s' : ProductDescriptionState),
      invoke okOut initial_state = Except.ok (tr, s') ∧
      tr.count "editor" = 1 ∧ tr.getLast? = some "editor" ∧
      s'.should_continue = false := by
  obtain ⟨k', tr1, s1, hloop⟩ :=
    runLoop_ok QUALITY_THRESHOLD MAX_ITERATIONS okOut (fun _ => ⟨"text", rfl⟩)
      0 initial_state
  have hrun : invoke okOut initial_state =
      Except.ok (tr1 ++ ["editor"], editor_node "text" s1) := by
    rw [invoke, invokeP]
    simp only [hloop]
    rfl
  obtain ⟨h1, h2, h3, -⟩ := editor_once_spec okOut initial_state _ _ hrun
  exact ⟨_, _, hrun, h1, h2, h3⟩

/-- C7 counterexample: the surfaced run error carries no stage
identification.  A `Timeout` raised by the first generation call (the
Writer's) and a `Timeout` raised by the second (the Critic's) abort the
run with *identical* errors, so the error cannot identify which stage
(writer/critic/editor) triggered it — the code has no `GenerationError`
wrapper; `main()` merely prints `str(e)` of the raw provider exception. -/
theorem error_stage_indistinguishable :
    invoke outW initial_state = Except.error "Timeout" ∧
    invoke outC initial_state = Except.error "Timeout" := by
  constructor
  · rw [invoke, invokeP, runLoopP.eq_def]
    rfl
  · rw [invoke, invokeP, runLoopP.eq_def]
    rfl

/-- C7 as amended: when a generation call fails, the run fails immediately
with that call's error propagated to the caller unchanged — no retry, no
stage tag, and no partial `WorkflowState` is returned (the error
constructor carries no state); otherwise the run completes normally. -/
theorem error_propagation_spec (outputs : Nat → Except String String)
    (s : ProductDescriptionState) :
    (∃ tr s', invoke outputs s = Except.ok (tr, s')) ∨
    (∃ k e, outputs k = Except.error e ∧ invoke outputs s = Except.error e) := by
  rw [invoke]
  cases hloop : runLoopP QUALITY_THRESHOLD MAX_ITERATIONS outputs 0 s with
  | error e =>
    right
    obtain ⟨j, hj⟩ := runLoop_error_src _ _ _ 0 s e hloop
    refine ⟨j, e, hj, ?_⟩
    rw [invokeP]
    simp only [hloop]
  | ok res =>
    obtain ⟨k1, tr1, s1⟩ := res
    cases hed : outputs k1 with
    | error e =>
      right
      refine ⟨k1, e, hed, ?_⟩
      rw [invokeP]
      simp only [hloop, hed]
    | ok ed =>
      left
      refine ⟨tr1 ++ ["editor"], editor_node ed s1, ?_⟩
      rw [invokeP]
      simp only [hloop, hed]

/-- C8 counterexample: with an invalid configuration — a maximum iteration
count of 0, below the required minimum of 1 — the run is *not* rejected
at run-start: it executes a full `writer → critic → decision` body and
the editor, issuing generation calls, and returns normally.  (The code
has no configuration validation at all; `main()` builds the graph and
invokes it directly.) -/
theorem invalid_config_not_rejected :
    (invokeP QUALITY_THRESHOLD 0 okOut initial_state).toOption.map Prod.fst =
      some ["writer", "critic", "decision", "editor"] := by
  rw [invokeP, runLoopP.eq_def]
  rfl

/-- C8 as amended: the shipped constants happen to satisfy the stated
bounds (`0 ≤ QUALITY_THRESHOLD ≤ 10`, `MAX_ITERATIONS ≥ 1`), but no
run-start validation exists: even under the invalid configuration
`max iterations = 0` the workflow runs, and any error it returns is a
generation-call error, never a configuration rejection. -/
theorem config_validation_spec :
    (0 ≤ QUALITY_THRESHOLD ∧ QUALITY_THRESHOLD ≤ 10 ∧ 1 ≤ MAX_ITERATIONS) ∧
    (∀ (outputs : Nat → Except String String) (s : ProductDescriptionState) (e : String),
      invokeP QUALITY_THRESHOLD 0 outputs s = Except.error e →
      ∃ k, outputs k = Except.error e) := by
  refine ⟨by decide, ?_⟩
  intro outputs s e h
  rw [invokeP] at h
  cases hloop : runLoopP QUALITY_THRESHOLD 0 outputs 0 s with
  | error e2 =>
    rw [hloop] at h
    simp only [Except.error.injEq] at h
    subst h
    exact runLoop_error_src _ _ _ 0 s e2 hloop
  | ok res =>
    obtain ⟨k1, tr1, s1⟩ := res
    rw [hloop] at h
    cases hed : outputs k1 with
    | error e2 =>
      simp only [hed, Except.error.injEq] at h
      subst h
      exact ⟨k1, hed⟩
    | ok ed =>
      simp only [hed] at h
      simp at h

/-- Witness for `config_validation_spec`: the oracle whose first call
raises `Timeout` makes the (invalidly configured) run fail with exactly
that generator error. -/
theorem config_validation_spec_witness :
    ∃ k, outW k = Except.error "Timeout" :=
  config_validation_spec.2 outW initial_state "Timeout"
    (by rw [invokeP, runLoopP.eq_def]; rfl)

end IterativeWorkflow
